import Mathlib

/-!
Verification of the Atlas comet-trajectory script (`src/atlas.py`).

The script fetches heliocentric ephemerides for comet `C/2025 N1` and the
planets Earth, Mars and Jupiter over a fixed date range, computes an index
for the date 2025-11-01 into the sampled epoch sequence, builds a static
3-D scene, and animates the comet's trajectory frame by frame.

The embedding below follows the source line by line:
  * `daysFromCivil` / `dateIndex` embed the date arithmetic of lines 49-52
    (`datetime` subtraction followed by `int(days / 2)`);
  * `filled`, `fetchBody`, `fetchSession` embed the Horizons queries of
    lines 32-47 (the remote service itself is modelled from the spec);
  * `staticScene` embeds the static plot elements of lines 58-70;
  * `update` embeds the per-frame animation callback of lines 102-116;
  * `animationFrames` embeds `FuncAnimation(..., frames=len(x), ...)` of
    line 119;
  * `printedPosition` / `printedDistance` embed the console output of
    lines 146-148.
-/

/-- A calendar date, as held by a Python `datetime` at midnight. -/
structure CivilDate where
  year : Int
  month : Int
  day : Int
deriving DecidableEq, Repr

/-- Day count of a civil date in the proleptic Gregorian calendar
(days since 1970-01-01, Hinnant's `days_from_civil`; Python's
`datetime.toordinal` equals this plus the fixed constant 719163, which
cancels in every difference the script takes). All divisions are
truncating, matching the C/Python integer semantics of the algorithm. -/
def daysFromCivil (dt : CivilDate) : Int :=
  let y : Int := if dt.month ≤ 2 then dt.year - 1 else dt.year
  let era : Int := Int.tdiv (if 0 ≤ y then y else y - 399) 400
  let yoe : Int := y - era * 400
  let doy : Int := Int.tdiv (153 * (dt.month + (if 2 < dt.month then -3 else 9)) + 2) 5 + dt.day - 1
  let doe : Int := yoe * 365 + Int.tdiv yoe 4 - Int.tdiv yoe 100 + doy
  era * 146097 + doe - 719468

/-- Embeds `start_dt = datetime.strptime('2025-Nov-01', '%Y-%b-%d')` (line 51). -/
def start_dt : CivilDate := ⟨2025, 11, 1⟩

/-- Embeds `stop_date = '2026-Mar-28'` (line 27) as a civil date. -/
def stop_dt : CivilDate := ⟨2026, 3, 28⟩

/-- Embeds `(target - start_dt).days`: `datetime` subtraction of two midnights
yields an exact whole number of days. -/
def diffDays (target : CivilDate) : Int :=
  daysFromCivil target - daysFromCivil start_dt

/-- Line 52: `nov1_index = int((nov1_date - start_dt).days / 2)`, generalised
over the target date. Python `int()` on the exact float `days / 2`
truncates toward zero, which is `Int.tdiv`. -/
def dateIndex (target : CivilDate) : Int :=
  Int.tdiv (diffDays target) 2

/-- The index the script actually computes for `nov1_date = datetime(2025, 11, 1)`. -/
def nov1_index : Int := dateIndex ⟨2025, 11, 1⟩

/-- The spec's formula for the Date Indexer: `floor((target - start) / step)`
with step = 2 days. Stated with `Int.fdiv`, which is floor division. -/
def specDateIndex (target : CivilDate) : Int :=
  Int.fdiv (diffDays target) 2

example : daysFromCivil ⟨2025, 11, 1⟩ - daysFromCivil ⟨2025, 10, 31⟩ = 1 := by decide
example : daysFromCivil ⟨2026, 3, 28⟩ - daysFromCivil ⟨2025, 11, 1⟩ = 147 := by decide
example : Int.tdiv (-1) 2 = 0 := by decide
example : Int.fdiv (-1) 2 = -1 := by decide
example : nov1_index = 0 := by decide

/-! ## The ephemeris fetch (lines 22-47)

Coordinates are floats in the script; they are modelled as rationals,
which represent every value the script manipulates exactly as data. -/

/-- One body's fetched position time series: the arrays
`x`, `y`, `z` of lines 34-36 and 43-47. -/
structure Body (α : Type) where
  x : List α
  y : List α
  z : List α
deriving DecidableEq, Repr

/-- Everything one run of the script fetches: the comet's arrays and
`planet_positions` for the three planets (dict insertion order
Earth, Mars, Jupiter, from `planet_ids` on line 23). -/
structure FetchedData (α : Type) where
  comet : Body α
  earth : Body α
  mars : Body α
  jupiter : Body α
deriving DecidableEq, Repr

/-- Embeds `obj_id = 'C/2025 N1'` (line 22). -/
def obj_id : String := "C/2025 N1"

/-- Embeds `planet_ids` (line 23), in dict insertion order. -/
def planet_ids : List (String × String) :=
  [("Earth", "399"), ("Mars", "499"), ("Jupiter", "599")]

/-- The sentinel used by `.filled(1e10)` (lines 34-36, 44-46); `1e10` is
exactly representable, so the rational is the same value. -/
def sentinelFill : ℚ := 10000000000

/-- Embeds `column.data.filled(1e10)` on a masked column: a masked (missing)
sample is `none` and is replaced by the sentinel; present samples pass
through unchanged. Total: it never fails, whatever is missing. -/
def filled (col : List (Option ℚ)) : List ℚ :=
  col.map (fun v => v.getD sentinelFill)

/-- Modelled from the spec: the remote Horizons ephemeris service. §4.1: given
a body identifier (observer fixed at `500@0`) it serves, per epoch of the
requested range, a raw 3-D sample any component of which may be missing
(`none` = masked in the returned table). The service itself is external to
the repository, so only its interface is modelled; its values are arbitrary. -/
structure EphemerisService where
  rawX : String → Nat → Option ℚ
  rawY : String → Nat → Option ℚ
  rawZ : String → Nat → Option ℚ

/-- Modelled from the spec: the number of epochs Horizons returns for
`{start, stop, step}` — one sample per epoch `start, start+step, ... ≤ stop`
(§3: "an ordered sequence of calendar instants from a start date to a stop
date at a fixed step"). -/
def epochCount (startDay stopDay : Int) (stepDays : Nat) : Nat :=
  if startDay ≤ stopDay then (stopDay - startDay).toNat / stepDays + 1 else 0

/-- Day number of `start_date = '2025-Nov-01'` (line 26). -/
def startDay : Int := daysFromCivil start_dt

/-- Day number of `stop_date = '2026-Mar-28'` (line 27). -/
def stopDay : Int := daysFromCivil stop_dt

/-- Embeds `step_size = '2d'` (line 28). -/
def stepDays : Nat := 2

/-- The shared epoch sequence of one fetch session: day numbers
`start, start+2, ...` up to the stop date. -/
def epochSequence : List Int :=
  (List.range (epochCount startDay stopDay stepDays)).map
    (fun i : Nat => startDay + (stepDays : Int) * Int.ofNat i)

/-- Lines 32-36 / 41-47: one `Horizons(id, location='500@0', epochs={start,
stop, step}).vectors()` call followed by `.filled(1e10)` on each of the
`x`, `y`, `z` columns. Every query in the script uses the same
`start_date`, `stop_date` and `step_size` constants. -/
def fetchBody (svc : EphemerisService) (id : String) : Body ℚ :=
  let n := epochCount startDay stopDay stepDays
  { x := filled ((List.range n).map (svc.rawX id))
    y := filled ((List.range n).map (svc.rawY id))
    z := filled ((List.range n).map (svc.rawZ id)) }

/-- The whole fetch phase (lines 32-47): the comet query, then the
`planet_positions` loop over Earth (`399`), Mars (`499`), Jupiter (`599`). -/
def fetchSession (svc : EphemerisService) : FetchedData ℚ :=
  { comet := fetchBody svc obj_id
    earth := fetchBody svc "399"
    mars := fetchBody svc "499"
    jupiter := fetchBody svc "599" }

/-! ## The animation update (lines 73-81, 102-116, 119) -/

/-- The stored data of one matplotlib line/marker artist, as set by
`set_data(xs, ys)` and `set_3d_properties(zs)`. -/
structure LineData (α : Type) where
  xs : List α
  ys : List α
  zs : List α
deriving DecidableEq, Repr

/-- The five mutable animated artists: `line`, `comet_marker` (lines 73-74)
and `planet_markers` for Earth, Mars, Jupiter (lines 77-81). -/
structure Artists (α : Type) where
  line : LineData α
  cometMarker : LineData α
  earthMarker : LineData α
  marsMarker : LineData α
  jupiterMarker : LineData α
deriving DecidableEq, Repr

/-- Identity of an artist, for the list `update` returns (lines 110-116). -/
inductive ArtistId where
  | line
  | cometMarker
  | earthMarker
  | marsMarker
  | jupiterMarker
deriving DecidableEq, Repr

/-- The module-level state `update` touches: the fetched arrays it reads and
the artist handles it writes. -/
structure PlotState (α : Type) where
  data : FetchedData α
  artists : Artists α
deriving DecidableEq, Repr

/-- The order in which `update` returns its artists: `artists = [line,
comet_marker]` (line 110) then the `planet_markers.items()` loop appends
Earth, Mars, Jupiter (lines 111-114). -/
def artistOrder : List ArtistId :=
  [ArtistId.line, ArtistId.cometMarker, ArtistId.earthMarker,
   ArtistId.marsMarker, ArtistId.jupiterMarker]

/-- One marker assignment `marker.set_data([bx[frame]], [by[frame]])`;
`marker.set_3d_properties([bz[frame]])` (lines 106-107 and 112-113): each
index `[frame]` raises `IndexError` out of range — modelled by the
`Option`. Accesses happen in source order x, y, z. -/
def markerAt (b : Body α) (frame : Nat) : Option (LineData α) :=
  (b.x.get? frame).bind fun vx =>
  (b.y.get? frame).bind fun vy =>
  (b.z.get? frame).bind fun vz =>
  some ⟨[vx], [vy], [vz]⟩

/-- The body of `update(frame)` (lines 102-116) acting on the fetched data:
`line` gets the slices `x[:frame+1]`, `y[:frame+1]`, `z[:frame+1]` (which
never fail), then the comet marker and the Earth, Mars, Jupiter markers are
assigned their samples at `frame`, in source order. -/
def updateArtists (d : FetchedData α) (frame : Nat) : Option (Artists α) :=
  (markerAt d.comet frame).bind fun cm =>
  (markerAt d.earth frame).bind fun em =>
  (markerAt d.mars frame).bind fun mm =>
  (markerAt d.jupiter frame).bind fun jm =>
  some
    { line := ⟨d.comet.x.take (frame + 1), d.comet.y.take (frame + 1),
               d.comet.z.take (frame + 1)⟩
      cometMarker := cm
      earthMarker := em
      marsMarker := mm
      jupiterMarker := jm }

/-- Embeds `update(frame)` (lines 102-116): reads only the fetched arrays,
reassigns the five artists' stored data, and returns the artist list in
the fixed order. -/
def update (s : PlotState α) (frame : Nat) : Option (PlotState α × List ArtistId) :=
  (updateArtists s.data frame).map (fun a => (⟨s.data, a⟩, artistOrder))

/-- Line 119: `FuncAnimation(fig, update, frames=len(x), ...)` drives
`update` with frames `0, 1, ..., len(x) - 1`, `x` being the comet's array. -/
def animationFrames (s : PlotState α) : List Nat :=
  List.range s.data.comet.x.length

/-- The C6 invariant: every per-body sequence of the session has length `N`. -/
def wellFormed (d : FetchedData α) (N : Nat) : Prop :=
  d.comet.x.length = N ∧ d.comet.y.length = N ∧ d.comet.z.length = N ∧
  d.earth.x.length = N ∧ d.earth.y.length = N ∧ d.earth.z.length = N ∧
  d.mars.x.length = N ∧ d.mars.y.length = N ∧ d.mars.z.length = N ∧
  d.jupiter.x.length = N ∧ d.jupiter.y.length = N ∧ d.jupiter.z.length = N

instance (d : FetchedData α) (N : Nat) : Decidable (wellFormed d N) := by
  unfold wellFormed; infer_instance

/-! ## The static scene (lines 58-70) and the console output (lines 146-148) -/

/-- One static dashed reference-orbit line, as passed to `ax.plot(r*cos θ,
r*sin θ, np.zeros_like(θ))`: a circle of the given radius sampled at 100
angles (`np.linspace(0, 2π, 100)`), with all Z data zero. Only the radius
scalar and the Z array are kept as data; the trigonometric sampling is
presentational. -/
structure OrbitCircle where
  radius : ℚ
  zData : List ℚ
deriving DecidableEq, Repr

/-- Embeds `mars_r = 1.35` (line 61). -/
def mars_r : ℚ := 1.35

/-- Embeds `jup_r = 5.2` (line 63). -/
def jup_r : ℚ := 5.2

/-- Embeds `theta = np.linspace(0, 2*np.pi, 100)`: 100 samples (line 59). -/
def thetaSamples : Nat := 100

/-- The comet's sample `(x[i], y[i], z[i])` at a given index, `none` when
some array is too short. -/
def sampleAt (b : Body α) (i : Nat) : Option (α × α × α) :=
  (b.x.get? i).bind fun vx =>
  (b.y.get? i).bind fun vy =>
  (b.z.get? i).bind fun vz =>
  some (vx, vy, vz)

/-- The static scene of lines 58-70: the three reference orbit circles
(Earth's radius is the implicit 1 of `np.cos(theta)`, Mars's is `mars_r`,
Jupiter's is `jup_r`; each Z array is `np.zeros_like(theta)`), the Sun
marker at the origin (line 67), and the highlighted comet position
`(x[nov1_index], y[nov1_index], z[nov1_index])` (line 70, `nov1_index = 0`). -/
structure Scene where
  earthOrbit : OrbitCircle
  marsOrbit : OrbitCircle
  jupiterOrbit : OrbitCircle
  sunMarker : ℚ × ℚ × ℚ
  highlight : Option (ℚ × ℚ × ℚ)
deriving DecidableEq, Repr

/-- The index used for the highlight and the console output; `nov1_index`
evaluates to `0`, a valid non-negative array index. -/
def highlightIndex : Nat := nov1_index.toNat

/-- Builds the static scene from the fetched data (lines 58-70). -/
def staticScene (d : FetchedData ℚ) : Scene :=
  { earthOrbit := ⟨1, List.replicate thetaSamples 0⟩
    marsOrbit := ⟨mars_r, List.replicate thetaSamples 0⟩
    jupiterOrbit := ⟨jup_r, List.replicate thetaSamples 0⟩
    sunMarker := (0, 0, 0)
    highlight := sampleAt d.comet highlightIndex }

/-- Line 147: the printed comet position
`(x[nov1_index], y[nov1_index], z[nov1_index])`. -/
def printedPosition (d : FetchedData ℚ) : Option (ℚ × ℚ × ℚ) :=
  sampleAt d.comet highlightIndex

/-- Line 148: the printed `np.sqrt(x[i]**2 + y[i]**2 + z[i]**2)`, as a real
number. -/
noncomputable def printedDistance (d : FetchedData ℚ) : Option ℝ :=
  (sampleAt d.comet highlightIndex).map
    (fun p => Real.sqrt ((p.1 : ℝ) ^ 2 + (p.2.1 : ℝ) ^ 2 + (p.2.2 : ℝ) ^ 2))

/-- The spec's words for C8: the Euclidean norm `sqrt(x² + y² + z²)` of a
sample. -/
noncomputable def euclideanNorm (p : ℚ × ℚ × ℚ) : ℝ :=
  Real.sqrt ((p.1 : ℝ) ^ 2 + (p.2.1 : ℝ) ^ 2 + (p.2.2 : ℝ) ^ 2)

/-! ## Helper lemmas -/

/-- On an in-bounds frame a marker assignment succeeds and holds the
singleton sample. -/
theorem markerAt_eq {α : Type} (b : Body α) (k : Nat)
    (hx : k < b.x.length) (hy : k < b.y.length) (hz : k < b.z.length) :
    markerAt b k =
      some ⟨[b.x.get ⟨k, hx⟩], [b.y.get ⟨k, hy⟩], [b.z.get ⟨k, hz⟩]⟩ := by
  rw [markerAt, List.get?_eq_get hx, List.get?_eq_get hy, List.get?_eq_get hz]
  rfl

/-- On an in-bounds frame, `updateArtists` succeeds and its value is the
slice/index assignments of lines 104-113, spelled out. -/
theorem updateArtists_eq {α : Type} (d : FetchedData α) (k : Nat)
    (h1 : k < d.comet.x.length) (h2 : k < d.comet.y.length)
    (h3 : k < d.comet.z.length) (h4 : k < d.earth.x.length)
    (h5 : k < d.earth.y.length) (h6 : k < d.earth.z.length)
    (h7 : k < d.mars.x.length) (h8 : k < d.mars.y.length)
    (h9 : k < d.mars.z.length) (h10 : k < d.jupiter.x.length)
    (h11 : k < d.jupiter.y.length) (h12 : k < d.jupiter.z.length) :
    updateArtists d k = some
      { line := ⟨d.comet.x.take (k + 1), d.comet.y.take (k + 1),
                 d.comet.z.take (k + 1)⟩
        cometMarker := ⟨[d.comet.x.get ⟨k, h1⟩], [d.comet.y.get ⟨k, h2⟩],
                        [d.comet.z.get ⟨k, h3⟩]⟩
        earthMarker := ⟨[d.earth.x.get ⟨k, h4⟩], [d.earth.y.get ⟨k, h5⟩],
                        [d.earth.z.get ⟨k, h6⟩]⟩
        marsMarker := ⟨[d.mars.x.get ⟨k, h7⟩], [d.mars.y.get ⟨k, h8⟩],
                       [d.mars.z.get ⟨k, h9⟩]⟩
        jupiterMarker := ⟨[d.jupiter.x.get ⟨k, h10⟩], [d.jupiter.y.get ⟨k, h11⟩],
                          [d.jupiter.z.get ⟨k, h12⟩]⟩ } := by
  rw [updateArtists, markerAt_eq d.comet k h1 h2 h3,
    markerAt_eq d.earth k h4 h5 h6, markerAt_eq d.mars k h7 h8 h9,
    markerAt_eq d.jupiter k h10 h11 h12]
  rfl

/-! ## Claims -/

/-- C1, counterexample: one day before the start date the code's truncating
index (0) differs from the spec's floor formula (-1), so `index(target) =
floor((target-start)/step)` does not hold for every target: out of range
below the start, truncation toward zero and floor part ways. -/
theorem dateIndex_counterexample :
    dateIndex ⟨2025, 10, 31⟩ = 0 ∧ specDateIndex ⟨2025, 10, 31⟩ = -1 := by
  decide

/-- C1 (amended): the Date Indexer computes the truncation-toward-zero of
`(target - start) / 2`; this is deterministic, coincides with the spec's
`floor((target - start)/step)` for every target on or after the start date
(in particular on every in-range target), and yields index 0 for the target
2025-11-01. Out-of-range targets are not bounds-checked and produce
out-of-range indices by the same truncating formula (but not always the
floor: see the counterexample). -/
theorem dateIndex_floor_on_and_after_start (target : CivilDate)
    (h : daysFromCivil start_dt ≤ daysFromCivil target) :
    dateIndex target = specDateIndex target ∧ dateIndex ⟨2025, 11, 1⟩ = 0 := by
  constructor
  · have hd : 0 ≤ diffDays target := by unfold diffDays; omega
    unfold dateIndex specDateIndex
    rw [Int.tdiv_eq_ediv hd (by decide), Int.fdiv_eq_ediv _ (by decide)]
  · decide

/-- Witness for C1's amended theorem at the concrete target 2025-12-25. -/
theorem dateIndex_floor_on_and_after_start_witness :
    daysFromCivil start_dt ≤ daysFromCivil ⟨2025, 12, 25⟩ ∧
      (dateIndex ⟨2025, 12, 25⟩ = specDateIndex ⟨2025, 12, 25⟩ ∧
        dateIndex ⟨2025, 11, 1⟩ = 0) :=
  ⟨by decide, dateIndex_floor_on_and_after_start ⟨2025, 12, 25⟩ (by decide)⟩

/-- A small concrete plot state used by the witnesses below: two samples
per body, empty artists. -/
def demoState : PlotState ℚ :=
  { data :=
      { comet := ⟨[1, 2], [3, 4], [5, 6]⟩
        earth := ⟨[1, 0], [0, 1], [0, 0]⟩
        mars := ⟨[2, 0], [0, 2], [0, 0]⟩
        jupiter := ⟨[5, 0], [0, 5], [0, 0]⟩ }
    artists :=
      ⟨⟨[], [], []⟩, ⟨[], [], []⟩, ⟨[], [], []⟩, ⟨[], [], []⟩, ⟨[], [], []⟩⟩ }

/-- C2: for every frame `k < N` (`N` the common sequence length), `update`
succeeds and sets the comet's drawn path to exactly the first `k + 1`
position samples — indices 0 through `k` — of the comet's `x`, `y`, `z`
sequences. -/
theorem update_path_first_samples {α : Type} (s : PlotState α) (N k : Nat)
    (hw : wellFormed s.data N) (hk : k < N) :
    ∃ p, update s k = some p ∧
      p.1.artists.line.xs = s.data.comet.x.take (k + 1) ∧
      p.1.artists.line.ys = s.data.comet.y.take (k + 1) ∧
      p.1.artists.line.zs = s.data.comet.z.take (k + 1) ∧
      p.1.artists.line.xs.length = k + 1 ∧
      p.1.artists.line.ys.length = k + 1 ∧
      p.1.artists.line.zs.length = k + 1 := by
  obtain ⟨w1, w2, w3, w4, w5, w6, w7, w8, w9, w10, w11, w12⟩ := hw
  rw [update, updateArtists_eq s.data k (w1 ▸ hk) (w2 ▸ hk) (w3 ▸ hk)
    (w4 ▸ hk) (w5 ▸ hk) (w6 ▸ hk) (w7 ▸ hk) (w8 ▸ hk) (w9 ▸ hk) (w10 ▸ hk)
    (w11 ▸ hk) (w12 ▸ hk), Option.map_some']
  exact ⟨_, rfl, rfl, rfl, rfl,
    by rw [List.length_take, w1]; exact Nat.min_eq_left hk,
    by rw [List.length_take, w2]; exact Nat.min_eq_left hk,
    by rw [List.length_take, w3]; exact Nat.min_eq_left hk⟩

/-- Witness for C2 at the concrete two-sample state and frame 1. -/
theorem update_path_first_samples_witness :
    wellFormed demoState.data 2 ∧ 1 < 2 ∧
      (∃ p, update demoState 1 = some p ∧
        p.1.artists.line.xs = demoState.data.comet.x.take (1 + 1) ∧
        p.1.artists.line.ys = demoState.data.comet.y.take (1 + 1) ∧
        p.1.artists.line.zs = demoState.data.comet.z.take (1 + 1) ∧
        p.1.artists.line.xs.length = 1 + 1 ∧
        p.1.artists.line.ys.length = 1 + 1 ∧
        p.1.artists.line.zs.length = 1 + 1) :=
  ⟨by decide, by decide,
    update_path_first_samples demoState 2 1 (by decide) (by decide)⟩

/-- C3: for every frame `k < N`, `update` sets the comet's current-position
marker to the comet's sample at index `k`, and each planet marker (Earth,
Mars, Jupiter) to that planet's sample at index `k`. -/
theorem update_markers_current {α : Type} (s : PlotState α) (N k : Nat)
    (hw : wellFormed s.data N) (hk : k < N) :
    ∃ p, update s k = some p ∧
      (∃ vx vy vz, s.data.comet.x.get? k = some vx ∧
        s.data.comet.y.get? k = some vy ∧ s.data.comet.z.get? k = some vz ∧
        p.1.artists.cometMarker = ⟨[vx], [vy], [vz]⟩) ∧
      (∃ vx vy vz, s.data.earth.x.get? k = some vx ∧
        s.data.earth.y.get? k = some vy ∧ s.data.earth.z.get? k = some vz ∧
        p.1.artists.earthMarker = ⟨[vx], [vy], [vz]⟩) ∧
      (∃ vx vy vz, s.data.mars.x.get? k = some vx ∧
        s.data.mars.y.get? k = some vy ∧ s.data.mars.z.get? k = some vz ∧
        p.1.artists.marsMarker = ⟨[vx], [vy], [vz]⟩) ∧
      (∃ vx vy vz, s.data.jupiter.x.get? k = some vx ∧
        s.data.jupiter.y.get? k = some vy ∧ s.data.jupiter.z.get? k = some vz ∧
        p.1.artists.jupiterMarker = ⟨[vx], [vy], [vz]⟩) := by
  obtain ⟨w1, w2, w3, w4, w5, w6, w7, w8, w9, w10, w11, w12⟩ := hw
  rw [update, updateArtists_eq s.data k (w1 ▸ hk) (w2 ▸ hk) (w3 ▸ hk)
    (w4 ▸ hk) (w5 ▸ hk) (w6 ▸ hk) (w7 ▸ hk) (w8 ▸ hk) (w9 ▸ hk) (w10 ▸ hk)
    (w11 ▸ hk) (w12 ▸ hk), Option.map_some']
  exact ⟨_, rfl,
    ⟨_, _, _, List.get?_eq_get _, List.get?_eq_get _, List.get?_eq_get _, rfl⟩,
    ⟨_, _, _, List.get?_eq_get _, List.get?_eq_get _, List.get?_eq_get _, rfl⟩,
    ⟨_, _, _, List.get?_eq_get _, List.get?_eq_get _, List.get?_eq_get _, rfl⟩,
    ⟨_, _, _, List.get?_eq_get _, List.get?_eq_get _, List.get?_eq_get _, rfl⟩⟩

/-- Witness for C3 at the concrete two-sample state and frame 0. -/
theorem update_markers_current_witness :
    wellFormed demoState.data 2 ∧ 0 < 2 ∧
      (∃ p, update demoState 0 = some p ∧
        (∃ vx vy vz, demoState.data.comet.x.get? 0 = some vx ∧
          demoState.data.comet.y.get? 0 = some vy ∧
          demoState.data.comet.z.get? 0 = some vz ∧
          p.1.artists.cometMarker = ⟨[vx], [vy], [vz]⟩) ∧
        (∃ vx vy vz, demoState.data.earth.x.get? 0 = some vx ∧
          demoState.data.earth.y.get? 0 = some vy ∧
          demoState.data.earth.z.get? 0 = some vz ∧
          p.1.artists.earthMarker = ⟨[vx], [vy], [vz]⟩) ∧
        (∃ vx vy vz, demoState.data.mars.x.get? 0 = some vx ∧
          demoState.data.mars.y.get? 0 = some vy ∧
          demoState.data.mars.z.get? 0 = some vz ∧
          p.1.artists.marsMarker = ⟨[vx], [vy], [vz]⟩) ∧
        (∃ vx vy vz, demoState.data.jupiter.x.get? 0 = some vx ∧
          demoState.data.jupiter.y.get? 0 = some vy ∧
          demoState.data.jupiter.z.get? 0 = some vz ∧
          p.1.artists.jupiterMarker = ⟨[vx], [vy], [vz]⟩)) :=
  ⟨by decide, by decide,
    update_markers_current demoState 2 0 (by decide) (by decide)⟩

/-- For a list of length `N > 0`, the last element as an optional singleton
is the element at index `N - 1`. -/
theorem getLast?_toList_eq {α : Type} (l : List α) (N : Nat)
    (hlen : l.length = N) (h : N - 1 < l.length) :
    l.getLast?.toList = [l.get ⟨N - 1, h⟩] := by
  subst hlen
  rw [List.getLast?_eq_getElem?, List.getElem?_eq_getElem h]
  rfl

/-- C4: the driver calls `update` exactly on frames `0 .. N - 1` where `N`
is the comet's sample count; every such frame stays below `N`; on every
such frame every array access in `update` is in range (it returns `some`);
and at frame `N - 1` the comet marker holds the final sample of each of the
comet's sequences. -/
theorem animation_frames_safe {α : Type} (s : PlotState α) (N : Nat)
    (hw : wellFormed s.data N) :
    animationFrames s = List.range N ∧
    (∀ k ∈ animationFrames s, k < N) ∧
    (∀ k ∈ animationFrames s, (update s k).isSome) ∧
    (0 < N → ∃ p, update s (N - 1) = some p ∧
      p.1.artists.cometMarker.xs = s.data.comet.x.getLast?.toList ∧
      p.1.artists.cometMarker.ys = s.data.comet.y.getLast?.toList ∧
      p.1.artists.cometMarker.zs = s.data.comet.z.getLast?.toList) := by
  obtain ⟨w1, w2, w3, w4, w5, w6, w7, w8, w9, w10, w11, w12⟩ := hw
  have hframes : animationFrames s = List.range N := by
    rw [animationFrames, w1]
  refine ⟨hframes, ?_, ?_, ?_⟩
  · intro k hkmem
    rw [hframes] at hkmem
    exact List.mem_range.mp hkmem
  · intro k hkmem
    rw [hframes] at hkmem
    have hk : k < N := List.mem_range.mp hkmem
    rw [update, updateArtists_eq s.data k (w1 ▸ hk) (w2 ▸ hk) (w3 ▸ hk)
      (w4 ▸ hk) (w5 ▸ hk) (w6 ▸ hk) (w7 ▸ hk) (w8 ▸ hk) (w9 ▸ hk) (w10 ▸ hk)
      (w11 ▸ hk) (w12 ▸ hk)]
    rfl
  · intro hN
    have hk : N - 1 < N := Nat.sub_lt hN Nat.one_pos
    rw [update, updateArtists_eq s.data (N - 1) (w1 ▸ hk) (w2 ▸ hk) (w3 ▸ hk)
      (w4 ▸ hk) (w5 ▸ hk) (w6 ▸ hk) (w7 ▸ hk) (w8 ▸ hk) (w9 ▸ hk) (w10 ▸ hk)
      (w11 ▸ hk) (w12 ▸ hk), Option.map_some']
    exact ⟨_, rfl,
      (getLast?_toList_eq s.data.comet.x N w1 (w1 ▸ hk)).symm,
      (getLast?_toList_eq s.data.comet.y N w2 (w2 ▸ hk)).symm,
      (getLast?_toList_eq s.data.comet.z N w3 (w3 ▸ hk)).symm⟩

/-- Witness for C4 at the concrete two-sample state. -/
theorem animation_frames_safe_witness :
    wellFormed demoState.data 2 ∧
      (animationFrames demoState = List.range 2 ∧
        (∀ k ∈ animationFrames demoState, k < 2) ∧
        (∀ k ∈ animationFrames demoState, (update demoState k).isSome) ∧
        (0 < 2 → ∃ p, update demoState (2 - 1) = some p ∧
          p.1.artists.cometMarker.xs = demoState.data.comet.x.getLast?.toList ∧
          p.1.artists.cometMarker.ys = demoState.data.comet.y.getLast?.toList ∧
          p.1.artists.cometMarker.zs = demoState.data.comet.z.getLast?.toList)) :=
  ⟨by decide, animation_frames_safe demoState 2 (by decide)⟩

/-- C9: every successful invocation of `update` leaves the fetched position
sequences — the comet's arrays and every entry of `planet_positions` —
exactly as they were; it reassigns only the artist objects. -/
theorem update_leaves_data_unchanged {α : Type} (s : PlotState α) (k : Nat)
    (p : PlotState α × List ArtistId) (h : update s k = some p) :
    p.1.data = s.data := by
  rw [update] at h
  cases hu : updateArtists s.data k with
  | none => rw [hu] at h; exact absurd h (by simp)
  | some a =>
      rw [hu, Option.map_some'] at h
      cases Option.some.inj h
      rfl

/-- Witness for C9 at the concrete two-sample state and frame 0. -/
theorem update_leaves_data_unchanged_witness :
    ∃ p, update demoState 0 = some p ∧ p.1.data = demoState.data :=
  ⟨_, rfl, update_leaves_data_unchanged demoState 0 _ rfl⟩

/-- C10: `update` is deterministic over the fetched data — two states with
the same fetched data produce the same result at every frame — and every
successful invocation returns exactly the five artists, in the fixed order:
trajectory line, comet marker, then the Earth, Mars and Jupiter markers. -/
theorem update_deterministic_fixed_artists {α : Type} (s t : PlotState α)
    (k : Nat) (h : s.data = t.data) :
    update s k = update t k ∧
    ∀ p ∈ update s k,
      p.2 = [ArtistId.line, ArtistId.cometMarker, ArtistId.earthMarker,
             ArtistId.marsMarker, ArtistId.jupiterMarker] ∧
      p.2.length = 5 := by
  constructor
  · rw [update, update, h]
  · intro p hp
    rw [update] at hp
    cases hu : updateArtists s.data k with
    | none => rw [hu] at hp; exact absurd hp (by simp)
    | some a =>
        rw [hu, Option.map_some'] at hp
        cases Option.mem_some_iff.mp hp
        exact ⟨rfl, rfl⟩

/-- A second concrete state: same fetched data as `demoState`, different
artist contents. -/
def demoStateAlt : PlotState ℚ :=
  { data := demoState.data
    artists :=
      ⟨⟨[9], [9], [9]⟩, ⟨[8], [8], [8]⟩, ⟨[7], [7], [7]⟩, ⟨[6], [6], [6]⟩,
       ⟨[5], [5], [5]⟩⟩ }

/-- Witness for C10: two states sharing data but not artists, at frame 1. -/
theorem update_deterministic_fixed_artists_witness :
    demoState.data = demoStateAlt.data ∧
      (update demoState 1 = update demoStateAlt 1 ∧
        ∀ p ∈ update demoState 1,
          p.2 = [ArtistId.line, ArtistId.cometMarker, ArtistId.earthMarker,
                 ArtistId.marsMarker, ArtistId.jupiterMarker] ∧
          p.2.length = 5) :=
  ⟨rfl, update_deterministic_fixed_artists demoState demoStateAlt 1 rfl⟩

/-- One fetched column, characterised pointwise: at every in-range epoch it
holds the raw sample if present and the sentinel if masked. -/
theorem filled_range_get? (f : Nat → Option ℚ) (n i : Nat) (hi : i < n) :
    (filled ((List.range n).map f)).get? i = some ((f i).getD sentinelFill) := by
  rw [filled, List.get?_eq_getElem?, List.getElem?_map, List.getElem?_map,
    List.getElem?_range hi]
  rfl

/-- The three columns of one fetched body, characterised pointwise. -/
theorem fetchBody_get? (svc : EphemerisService) (id : String) (i : Nat)
    (hi : i < epochCount startDay stopDay stepDays) :
    (fetchBody svc id).x.get? i = some ((svc.rawX id i).getD sentinelFill) ∧
    (fetchBody svc id).y.get? i = some ((svc.rawY id i).getD sentinelFill) ∧
    (fetchBody svc id).z.get? i = some ((svc.rawZ id i).getD sentinelFill) :=
  ⟨filled_range_get? (svc.rawX id) _ i hi,
   filled_range_get? (svc.rawY id) _ i hi,
   filled_range_get? (svc.rawZ id) _ i hi⟩

/-- C5: for every body (comet, Earth, Mars, Jupiter) and every axis, at
every in-range epoch the fetched array holds exactly the raw sample when it
is present and the sentinel `1e10` when it is masked (`Option.getD` is that
case split); the fetch is total — missing samples never make it fail. -/
theorem fetch_fills_missing_with_sentinel (svc : EphemerisService) (i : Nat)
    (hi : i < epochCount startDay stopDay stepDays) :
    ((fetchSession svc).comet.x.get? i = some ((svc.rawX obj_id i).getD sentinelFill) ∧
     (fetchSession svc).comet.y.get? i = some ((svc.rawY obj_id i).getD sentinelFill) ∧
     (fetchSession svc).comet.z.get? i = some ((svc.rawZ obj_id i).getD sentinelFill)) ∧
    ((fetchSession svc).earth.x.get? i = some ((svc.rawX "399" i).getD sentinelFill) ∧
     (fetchSession svc).earth.y.get? i = some ((svc.rawY "399" i).getD sentinelFill) ∧
     (fetchSession svc).earth.z.get? i = some ((svc.rawZ "399" i).getD sentinelFill)) ∧
    ((fetchSession svc).mars.x.get? i = some ((svc.rawX "499" i).getD sentinelFill) ∧
     (fetchSession svc).mars.y.get? i = some ((svc.rawY "499" i).getD sentinelFill) ∧
     (fetchSession svc).mars.z.get? i = some ((svc.rawZ "499" i).getD sentinelFill)) ∧
    ((fetchSession svc).jupiter.x.get? i = some ((svc.rawX "599" i).getD sentinelFill) ∧
     (fetchSession svc).jupiter.y.get? i = some ((svc.rawY "599" i).getD sentinelFill) ∧
     (fetchSession svc).jupiter.z.get? i = some ((svc.rawZ "599" i).getD sentinelFill)) :=
  ⟨fetchBody_get? svc obj_id i hi, fetchBody_get? svc "399" i hi,
   fetchBody_get? svc "499" i hi, fetchBody_get? svc "599" i hi⟩

/-- A concrete service with every sample missing on every axis. -/
def allMissingService : EphemerisService :=
  ⟨fun _ _ => none, fun _ _ => none, fun _ _ => none⟩

/-- Witness for C5: with every raw sample missing, epoch 0 of every array
is the sentinel `1e10`. -/
theorem fetch_fills_missing_with_sentinel_witness :
    0 < epochCount startDay stopDay stepDays ∧
      (((fetchSession allMissingService).comet.x.get? 0 =
          some ((allMissingService.rawX obj_id 0).getD sentinelFill) ∧
        (fetchSession allMissingService).comet.y.get? 0 =
          some ((allMissingService.rawY obj_id 0).getD sentinelFill) ∧
        (fetchSession allMissingService).comet.z.get? 0 =
          some ((allMissingService.rawZ obj_id 0).getD sentinelFill)) ∧
       (((fetchSession allMissingService).earth.x.get? 0 =
          some ((allMissingService.rawX "399" 0).getD sentinelFill) ∧
        (fetchSession allMissingService).earth.y.get? 0 =
          some ((allMissingService.rawY "399" 0).getD sentinelFill) ∧
        (fetchSession allMissingService).earth.z.get? 0 =
          some ((allMissingService.rawZ "399" 0).getD sentinelFill))) ∧
       (((fetchSession allMissingService).mars.x.get? 0 =
          some ((allMissingService.rawX "499" 0).getD sentinelFill) ∧
        (fetchSession allMissingService).mars.y.get? 0 =
          some ((allMissingService.rawY "499" 0).getD sentinelFill) ∧
        (fetchSession allMissingService).mars.z.get? 0 =
          some ((allMissingService.rawZ "499" 0).getD sentinelFill))) ∧
       (((fetchSession allMissingService).jupiter.x.get? 0 =
          some ((allMissingService.rawX "599" 0).getD sentinelFill) ∧
        (fetchSession allMissingService).jupiter.y.get? 0 =
          some ((allMissingService.rawY "599" 0).getD sentinelFill) ∧
        (fetchSession allMissingService).jupiter.z.get? 0 =
          some ((allMissingService.rawZ "599" 0).getD sentinelFill)))) :=
  ⟨by decide, fetch_fills_missing_with_sentinel allMissingService 0 (by decide)⟩

/-- C6: all per-body position sequences produced by one fetch session have
the same length — that of the shared epoch sequence, since every query uses
the same start date, stop date and step size. -/
theorem fetch_session_equal_lengths (svc : EphemerisService) :
    wellFormed (fetchSession svc) epochSequence.length := by
  have hseq : epochSequence.length = epochCount startDay stopDay stepDays := by
    rw [epochSequence, List.length_map, List.length_range]
  have hcol : ∀ f : Nat → Option ℚ,
      (filled ((List.range (epochCount startDay stopDay stepDays)).map f)).length =
        epochCount startDay stopDay stepDays := by
    intro f
    rw [filled, List.length_map, List.length_map, List.length_range]
  rw [wellFormed, hseq]
  exact ⟨hcol _, hcol _, hcol _, hcol _, hcol _, hcol _, hcol _, hcol _,
    hcol _, hcol _, hcol _, hcol _⟩

/-- C7: the three static reference orbit circles have radii exactly 1.0
(Earth), 1.35 (Mars) and 5.2 (Jupiter) astronomical units, their Z data is
identically 0, and they are the same whatever data was fetched — hardcoded
constants, not derived from positions. -/
theorem static_orbit_circles_constant (d d' : FetchedData ℚ) :
    (staticScene d).earthOrbit = (staticScene d').earthOrbit ∧
    (staticScene d).marsOrbit = (staticScene d').marsOrbit ∧
    (staticScene d).jupiterOrbit = (staticScene d').jupiterOrbit ∧
    (staticScene d).earthOrbit.radius = 1 ∧
    (staticScene d).marsOrbit.radius = 1.35 ∧
    (staticScene d).jupiterOrbit.radius = 5.2 ∧
    (∀ q ∈ (staticScene d).earthOrbit.zData, q = 0) ∧
    (∀ q ∈ (staticScene d).marsOrbit.zData, q = 0) ∧
    (∀ q ∈ (staticScene d).jupiterOrbit.zData, q = 0) := by
  refine ⟨rfl, rfl, rfl, rfl, rfl, rfl, ?_, ?_, ?_⟩ <;>
    exact fun q hq => List.eq_of_mem_replicate hq

/-- C8: the console output prints the comet's sample at the computed
highlight index together with its distance from the origin, and that
distance is exactly the Euclidean norm `sqrt(x² + y² + z²)` of the printed
sample. -/
theorem printed_distance_is_norm (d : FetchedData ℚ) (p : ℚ × ℚ × ℚ)
    (h : printedPosition d = some p) :
    printedPosition d = sampleAt d.comet highlightIndex ∧
    highlightIndex = 0 ∧
    printedDistance d = some (euclideanNorm p) := by
  refine ⟨rfl, by decide, ?_⟩
  rw [printedDistance, show sampleAt d.comet highlightIndex = some p from h,
    Option.map_some']
  rfl

/-- Witness for C8 at the concrete fetched data of `demoState` (highlight
sample `(1, 3, 5)`). -/
theorem printed_distance_is_norm_witness :
    printedPosition demoState.data = some (1, 3, 5) ∧
      (printedPosition demoState.data = sampleAt demoState.data.comet highlightIndex ∧
        highlightIndex = 0 ∧
        printedDistance demoState.data = some (euclideanNorm (1, 3, 5))) :=
  ⟨by decide, printed_distance_is_norm demoState.data (1, 3, 5) (by decide)⟩
